import Mathlib

/-!
Verification of the a2a-registry directory core against its specification.

The relational layer is embedded from the SQL schema (`migrations` file:
tables `agents`, `health_checks`, `agent_flags`, the `UNIQUE` constraint on
`agents.well_known_uri`, the `ON DELETE CASCADE` foreign keys, and the
`update_updated_at_column` trigger).  The website's client-side filtering is
embedded from the two React implementations of the conformance filter.
Components whose implementation is not part of the repository snapshot
(registration service, validator, health-check worker, aggregation) are
modelled from the specification, and each such definition says so in its
doc comment.
-/

namespace A2ARegistry

/-! ## Data model (from the SQL schema) -/

/-- A skill as stored in the `agents.skills` JSONB column and used by the
website (`skill.id`, `skill.name`, `skill.description`, `skill.tags`). -/
structure Skill where
  sid : String
  sname : String
  sdescription : String
  tags : List String
deriving Repr, DecidableEq

/-- One row of the `agents` table.  Columns follow the schema: `id`,
`created_at`, `updated_at`, `protocol_version`, `name`, `description`,
`author`, `well_known_uri` (UNIQUE), `url`, `version`, `capabilities`,
`default_input_modes`, `default_output_modes`, `skills`, `hidden`
(DEFAULT FALSE), `flag_count` (DEFAULT 0).  The tri-state conformance field
of the spec's data model is not in this initial schema file; it is carried
here as `conformance : Option Bool` (`none` = never probed), the shape the
website reads (`agent.conformance` is `true`, `false` or absent). -/
structure AgentRow where
  id : Nat
  created_at : Nat
  updated_at : Nat
  protocol_version : String
  name : String
  description : String
  author : String
  well_known_uri : String
  url : String
  version : String
  capabilities : List (String × Bool)
  default_input_modes : List String
  default_output_modes : List String
  skills : List Skill
  hidden : Bool
  flag_count : Int
  conformance : Option Bool
deriving Repr, DecidableEq

/-- One row of the `health_checks` table: `agent_id` (REFERENCES agents ON
DELETE CASCADE), `checked_at`, `status_code` (nullable), `response_time_ms`
(nullable), `success`, `error_message` (nullable). -/
structure HealthCheckRow where
  id : Nat
  agent_id : Nat
  checked_at : Nat
  status_code : Option Int
  response_time_ms : Option Int
  success : Bool
  error_message : Option String
deriving Repr, DecidableEq

/-- One row of the `agent_flags` table: `agent_id` (REFERENCES agents ON
DELETE CASCADE), `flagged_at`, `reason` (nullable). -/
structure FlagRow where
  id : Nat
  agent_id : Nat
  flagged_at : Nat
  reason : Option String
deriving Repr, DecidableEq

/-- The relational store: the three tables of the schema. -/
structure DB where
  agents : List AgentRow
  health_checks : List HealthCheckRow
  agent_flags : List FlagRow
deriving Repr, DecidableEq

/-- `DELETE FROM agents WHERE id = aid`.  Both `health_checks.agent_id` and
`agent_flags.agent_id` are declared `REFERENCES agents(id) ON DELETE
CASCADE`, so deleting an agent row also deletes every health-check row and
every flag row referencing it. -/
def deleteAgent (db : DB) (aid : Nat) : DB :=
  { agents := db.agents.filter (fun a => a.id ≠ aid),
    health_checks := db.health_checks.filter (fun h => h.agent_id ≠ aid),
    agent_flags := db.agent_flags.filter (fun f => f.agent_id ≠ aid) }

/-- The `update_updated_at_column` trigger: `BEFORE UPDATE ON agents FOR
EACH ROW`, it overwrites `NEW.updated_at` with `NOW()`, whatever the update
statement wrote. -/
def touchRow (now : Nat) (a : AgentRow) : AgentRow :=
  { a with updated_at := now }

/-- An UPDATE of a single `agents` row: the statement's change `f` is
applied, then the `update_updated_at_column` trigger fires. -/
def updateAgentRow (now : Nat) (f : AgentRow → AgentRow) (a : AgentRow) : AgentRow :=
  touchRow now (f a)

/-- INSERT of a new `agents` row supplying only the NOT NULL protocol
fields, so the schema defaults apply: `id` from the sequence, `created_at`
and `updated_at` DEFAULT NOW(), `hidden` DEFAULT FALSE, `flag_count`
DEFAULT 0; conformance starts unknown (never probed). -/
def newAgentRow (id now : Nat) (uri : String) : AgentRow :=
  { id := id
    created_at := now
    updated_at := now
    protocol_version := ""
    name := ""
    description := ""
    author := ""
    well_known_uri := uri
    url := ""
    version := ""
    capabilities := []
    default_input_modes := []
    default_output_modes := []
    skills := []
    hidden := false
    flag_count := 0
    conformance := none }

/-! ## Query engine: the website's conformance-class filters

Two implementations of the conformance filter exist in the repository.
The static-fallback filter of the newer app (`filteredAgents`):
`standard` keeps `agent.conformance === true`, `non-standard` keeps
`agent.conformance !== true`.  The older app's filtering effect:
`standard` keeps `agent.conformance !== false`, `non-standard` keeps
`agent.conformance === false`. -/

/-- An agent as the website sees it (the fields the filters read). -/
structure JsAgent where
  name : String
  description : String
  author : Option String
  skills : List Skill
  conformance : Option Bool
deriving Repr, DecidableEq

/-- The conformance step of `filteredAgents` in the newer app (static
fallback): `standard` keeps `conformance === true`, `non-standard` keeps
`conformance !== true`, anything else leaves the list alone. -/
def conformanceStepFallback (conformanceFilter : String) (filtered : List JsAgent) :
    List JsAgent :=
  if conformanceFilter = "standard" then
    filtered.filter (fun agent => agent.conformance == some true)
  else if conformanceFilter = "non-standard" then
    filtered.filter (fun agent => !(agent.conformance == some true))
  else filtered

/-- The conformance step of the older app's filtering effect: `standard`
keeps `conformance !== false`, `non-standard` keeps
`conformance === false`. -/
def conformanceStepLegacy (conformanceFilter : String) (filtered : List JsAgent) :
    List JsAgent :=
  if conformanceFilter = "standard" then
    filtered.filter (fun agent => !(agent.conformance == some false))
  else if conformanceFilter = "non-standard" then
    filtered.filter (fun agent => agent.conformance == some false)
  else filtered

/-- A registered agent that has never been probed: conformance unknown. -/
def unknownConfAgent : JsAgent :=
  { name := "hello-world"
    description := "says hello"
    author := none
    skills := []
    conformance := none }

/-! ## Validator (spec-modelled: its implementation is not in the
repository snapshot) -/

/-- Modelled from the spec: the missing Validator's view of one entry of
the skills list of a fetched document — every field may be absent. -/
structure SkillDoc where
  sid : Option String
  sname : Option String
  sdescription : Option String
  tags : Option (List String)
deriving Repr, DecidableEq

/-- Modelled from the spec: the missing Card Fetcher's output, a parsed
document as an optional-field intermediate structure (the spec forbids
deserializing directly into the typed model). -/
structure AgentDoc where
  protocolVersion : Option String
  docName : Option String
  docDescription : Option String
  url : Option String
  version : Option String
  capabilities : Option (List (String × Bool))
  skills : Option (List SkillDoc)
  defaultInputModes : Option (List String)
  defaultOutputModes : Option (List String)
deriving Repr, DecidableEq

/-- Modelled from the spec: the missing Validator's verdict,
`{conformant: bool, violations: [string]}`. -/
structure Verdict where
  conformant : Bool
  violations : List String
deriving Repr, DecidableEq

/-- Modelled from the spec: one required-field presence check of the
missing Validator. -/
def requireField (present : Bool) (fieldName : String) : List String :=
  if present then [] else ["missing required field: " ++ fieldName]

/-- Modelled from the spec: the missing Validator's per-skill checks
(each skill needs id, name, description, tags). -/
def skillItemViolations (s : SkillDoc) : List String :=
  requireField s.sid.isSome "skill.id" ++
  requireField s.sname.isSome "skill.name" ++
  requireField s.sdescription.isSome "skill.description" ++
  requireField s.tags.isSome "skill.tags"

/-- Modelled from the spec: the missing Validator's checks of the skills
list — present, non-empty, well-shaped items, ids unique within the
list. -/
def skillsViolations : Option (List SkillDoc) → List String
  | none => ["missing required field: skills"]
  | some [] => ["skills must be a non-empty list"]
  | some ss =>
      (ss.map skillItemViolations).flatten ++
      (if (ss.filterMap SkillDoc.sid).Nodup then [] else ["skill ids must be unique"])

/-- Modelled from the spec: the missing Validator's full list of
violations over the required fields of a fetched document. -/
def cardViolations (d : AgentDoc) : List String :=
  requireField d.protocolVersion.isSome "protocolVersion" ++
  requireField d.docName.isSome "name" ++
  requireField d.docDescription.isSome "description" ++
  requireField d.url.isSome "url" ++
  requireField d.version.isSome "version" ++
  requireField d.capabilities.isSome "capabilities" ++
  skillsViolations d.skills ++
  requireField d.defaultInputModes.isSome "defaultInputModes" ++
  requireField d.defaultOutputModes.isSome "defaultOutputModes"

/-- Modelled from the spec: the missing Validator. It never throws —
every document gets a verdict, conformant exactly when no violation was
found. -/
def validateCard (d : AgentDoc) : Verdict :=
  { conformant := (cardViolations d).isEmpty, violations := cardViolations d }

/-! ## Registration Service (spec-modelled: its implementation is not in
the repository snapshot; it runs over the schema's UNIQUE constraint on
`agents.well_known_uri`) -/

/-- Split a URL's characters at the first `://`. -/
def schemeSplit : List Char → Option (List Char × List Char)
  | ':' :: '/' :: '/' :: rest => some ([], rest)
  | c :: rest =>
      match schemeSplit rest with
      | some (l, r) => some (c :: l, r)
      | none => none
  | [] => none

/-- Modelled from the spec: scheme lowering, part of the missing
Registration Service's URL normalization. -/
def lowerSchemeChars (cs : List Char) : List Char :=
  match schemeSplit cs with
  | some (s, rest) => s.map Char.toLower ++ [':', '/', '/'] ++ rest
  | none => cs

/-- Modelled from the spec: fragment stripping, part of the missing
Registration Service's URL normalization. -/
def stripFragmentChars : List Char → List Char
  | [] => []
  | '#' :: _ => []
  | c :: rest => c :: stripFragmentChars rest

/-- Modelled from the spec: trailing-slash stripping, part of the missing
Registration Service's URL normalization. -/
def stripTrailingSlashChars (cs : List Char) : List Char :=
  match cs.getLast? with
  | some '/' => cs.dropLast
  | _ => cs

/-- Modelled from the spec: the missing Registration Service's URL
normalization before comparison — scheme lowering, fragment stripping,
trailing-slash stripping. -/
def normalizeUrl (u : String) : String :=
  String.mk (stripTrailingSlashChars (stripFragmentChars (lowerSchemeChars u.data)))

/-- An `https` scheme at the head of a character list. -/
def isHttpsChars : List Char → Bool
  | 'h' :: 't' :: 't' :: 'p' :: 's' :: ':' :: '/' :: '/' :: _ => true
  | _ => false

/-- Modelled from the spec: the missing Registration Service requires an
`https` URL (checked after scheme lowering). -/
def isHttps (u : String) : Bool :=
  isHttpsChars (lowerSchemeChars u.data)

/-- Modelled from the spec: the missing Card Fetcher's failure taxonomy:
timeout, dns-failure, ssrf-blocked, non-2xx-status, malformed-body. -/
inductive FetchError
  | timeout
  | dnsFailure
  | ssrfBlocked
  | non2xxStatus (status : Nat)
  | malformedBody
deriving Repr, DecidableEq

/-- Modelled from the spec: the missing Registration Service's hard
failure: `invalid-url` (not https / fails SSRF checks).  A fetch failure
at registration time is NOT a hard failure — the entry is still created. -/
inductive RegError
  | invalidUrl
deriving Repr, DecidableEq

/-- Modelled from the spec: the warning carried to the caller when the
synchronous fetch at registration time fails. -/
def fetchWarning : FetchError → String
  | .timeout => "fetch failed: timeout"
  | .dnsFailure => "fetch failed: dns-failure"
  | .ssrfBlocked => "fetch failed: ssrf-blocked"
  | .non2xxStatus s => "fetch failed: non-2xx status " ++ toString s
  | .malformedBody => "fetch failed: malformed-body"

/-- Modelled from the spec: the missing Registration Service's answer —
the entry the URL resolved to, whether a row was created, and an optional
warning. -/
structure RegOutcome where
  entry : AgentRow
  isNew : Bool
  warning : Option String
deriving Repr, DecidableEq

/-- Lookup by the dedup key (the UNIQUE `well_known_uri` column). -/
def findByUri (db : DB) (uri : String) : Option AgentRow :=
  db.agents.find? (fun a => a.well_known_uri == uri)

/-- INSERT of a fresh row into the `agents` table. -/
def insertAgent (db : DB) (a : AgentRow) : DB :=
  { db with agents := a :: db.agents }

/-- Modelled from the spec: converting one validated skill entry of the
document into the stored skill shape. -/
def skillFromDoc (s : SkillDoc) : Skill :=
  { sid := s.sid.getD ""
    sname := s.sname.getD ""
    sdescription := s.sdescription.getD ""
    tags := s.tags.getD [] }

/-- Modelled from the spec: registration step 3 — populating the
descriptive columns of a fresh row from the live document.  The dedup key
and the conformance field are untouched (conformance is owned by the
worker after creation). -/
def populateFromDoc (a : AgentRow) (d : AgentDoc) : AgentRow :=
  { a with
    protocol_version := d.protocolVersion.getD a.protocol_version
    name := d.docName.getD a.name
    description := d.docDescription.getD a.description
    url := d.url.getD a.url
    version := d.version.getD a.version
    capabilities := d.capabilities.getD a.capabilities
    default_input_modes := d.defaultInputModes.getD a.default_input_modes
    default_output_modes := d.defaultOutputModes.getD a.default_output_modes
    skills := (d.skills.getD []).map skillFromDoc }

/-- Modelled from the spec: the warning carried to the caller when the
card fetched at registration time fails validation (registration still
succeeds; conformance stays unknown). -/
def validationWarning (v : Verdict) : Option String :=
  if v.conformant then none
  else some "validation failed: agent card not conformant"

/-- Modelled from the spec: the missing Registration Service,
`Register(url) -> Entry | RegistrationError`.  Normalize the URL; a
non-https URL is `invalid-url`; a URL already registered resolves to the
existing entry (idempotent, no new row); otherwise insert a fresh row with
conformance unknown, then populate it from the synchronous fetch — a
fetch failure still creates the row and only adds a warning, and a fetched
card that fails validation also still creates the row and only adds a
warning.  `fetch` is the outcome of the synchronous Card Fetcher call. -/
def register (db : DB) (now newId : Nat) (rawUrl : String)
    (fetch : Except FetchError AgentDoc) : Except RegError (RegOutcome × DB) :=
  if isHttps rawUrl = false then .error .invalidUrl
  else
    let uri := normalizeUrl rawUrl
    match findByUri db uri with
    | some existing =>
        .ok ({ entry := existing, isNew := false, warning := none }, db)
    | none =>
        let base := newAgentRow newId now uri
        match fetch with
        | .ok doc =>
            let populated := populateFromDoc base doc
            .ok ({ entry := populated, isNew := true,
                   warning := validationWarning (validateCard doc) },
              insertAgent db populated)
        | .error e =>
            .ok ({ entry := base, isNew := true, warning := some (fetchWarning e) },
              insertAgent db base)

/-- The published-URL uniqueness invariant of the `agents` table (the
UNIQUE constraint on `well_known_uri`). -/
def urisUnique (db : DB) : Prop :=
  db.agents.Pairwise (fun a b => a.well_known_uri ≠ b.well_known_uri)

/-! ## Health Check Worker conformance update (spec-modelled: the worker's
implementation is not in the repository snapshot) -/

/-- Modelled from the spec: the missing worker's view of one probe —
whether the fetch succeeded, and (when it did) whether the fetched
document validated. -/
structure ProbeResult where
  success : Bool
  validated : Bool
deriving Repr, DecidableEq

/-- Modelled from the spec: number of consecutive fetch failures counting
back from the latest probe (history is latest-first). -/
def consecutiveFailures : List ProbeResult → Nat
  | [] => 0
  | p :: rest => if p.success then 0 else consecutiveFailures rest + 1

/-- Modelled from the spec: the missing worker's configurable
consecutive-failure threshold, default 2. -/
def failureThreshold : Nat := 2

/-- Modelled from the spec: the missing worker's end-of-probe conformance
update.  `history` is the entry's probe results, latest first; `prev` is
the entry's conformance before the update.  Set `true` only when the
latest probe succeeded and validated; set `false` when the latest probe
succeeded but failed validation, or when the consecutive-failure count
reaches the threshold; otherwise leave conformance unchanged. -/
def updateConformance (prev : Option Bool) (history : List ProbeResult) : Option Bool :=
  match history with
  | [] => prev
  | latest :: _ =>
    if latest.success then some latest.validated
    else if failureThreshold ≤ consecutiveFailures history then some false
    else prev

/-! ## Aggregation, probe records, flags (spec-modelled where the
implementation is not in the repository snapshot) -/

/-- Number of successful probes in a probe set. -/
def successCount (ps : List HealthCheckRow) : Nat :=
  (ps.filter (fun h => h.success)).length

/-- Modelled from the spec: the missing Aggregation's uptime percentage —
`100 * successes / total_probes`, and `0` when there are no probes. -/
def uptimePercentage (ps : List HealthCheckRow) : ℚ :=
  if ps.length = 0 then 0
  else 100 * (successCount ps : ℚ) / (ps.length : ℚ)

/-- Modelled from the spec: the missing Aggregation's mean latency over
successful probes only (`none` when no successful probe carries a
latency). -/
def avgLatencyMs (ps : List HealthCheckRow) : Option ℚ :=
  let ls := (ps.filter (fun h => h.success)).filterMap (fun h => h.response_time_ms)
  if ls.length = 0 then none
  else some ((ls.map (fun n => (n : ℚ))).sum / (ls.length : ℚ))

/-- Probe rows of one entry, in table (insertion) order. -/
def probesFor (db : DB) (aid : Nat) : List HealthCheckRow :=
  db.health_checks.filter (fun h => h.agent_id = aid)

/-- Modelled from the spec: the probes of an entry within a trailing
window — those whose `checked_at` is at or after the window cutoff. -/
def probesInWindow (db : DB) (aid cutoff : Nat) : List HealthCheckRow :=
  (probesFor db aid).filter (fun h => cutoff ≤ h.checked_at)

/-- Modelled from the spec: worker step 4 — append one Probe Record
(`health_checks` rows are only ever appended). -/
def appendProbe (db : DB) (row : HealthCheckRow) : DB :=
  { db with health_checks := db.health_checks ++ [row] }

/-- Modelled from the spec: the optional retention-window pruning of old
probe records. -/
def pruneProbes (db : DB) (cutoff : Nat) : DB :=
  { db with health_checks := db.health_checks.filter (fun h => cutoff ≤ h.checked_at) }

/-- The append-only invariant of the `health_checks` table: per-entry
probe timestamps strictly increase in insertion order. -/
def probeTimesMonotone (db : DB) : Prop :=
  ∀ aid : Nat, ((probesFor db aid).map (fun h => h.checked_at)).Pairwise (· < ·)

/-- Modelled from the spec: the missing Moderation/Flag Service —
`Flag(entry_id, reason, ...)` appends one Flag Record and increments the
entry's flag counter with an UPDATE of its `agents` row; the UPDATE fires
the `update_updated_at_column` trigger. -/
def flagAgent (db : DB) (now fid aid : Nat) (reason : Option String) : DB :=
  { db with
    agent_flags := db.agent_flags ++
      [{ id := fid, agent_id := aid, flagged_at := now, reason := reason }],
    agents := db.agents.map (fun a =>
      if a.id = aid then
        updateAgentRow now (fun b => { b with flag_count := b.flag_count + 1 }) a
      else a) }

/-- A one-entry store used to exercise the flag service: agent id 1,
created at time 0, zero flags, publicly visible. -/
def flagDemoDb : DB :=
  { agents := [newAgentRow 1 0 "https://c.example/agent.json"]
    health_checks := []
    agent_flags := [] }

/-- A two-entry store with probe and flag rows for both entries, used to
exercise the cascading delete. -/
def cascadeDemoDb : DB :=
  { agents := [newAgentRow 1 0 "https://a.example/agent.json",
               newAgentRow 2 0 "https://b.example/agent.json"]
    health_checks :=
      [{ id := 1, agent_id := 1, checked_at := 3, status_code := none,
         response_time_ms := none, success := false, error_message := some "timeout" },
       { id := 2, agent_id := 2, checked_at := 5, status_code := some 200,
         response_time_ms := some 40, success := true, error_message := none }]
    agent_flags :=
      [{ id := 1, agent_id := 1, flagged_at := 4, reason := some "spam" },
       { id := 2, agent_id := 2, flagged_at := 6, reason := none }] }

end A2ARegistry

namespace A2ARegistry

/-! ## Theorems for the schema-level claims -/

/-- C9: Deleting a Directory Entry also deletes, in the same operation,
every Probe Record (health-check row) and every Flag Record that references
it: after a delete, no probe or flag row with that entry id remains (the
`ON DELETE CASCADE` clauses of the schema). -/
theorem delete_cascades (db : DB) (aid : Nat) :
    ((deleteAgent db aid).agents.filter (fun a => a.id = aid) = [] ∧
      (deleteAgent db aid).health_checks.filter (fun h => h.agent_id = aid) = [] ∧
      (deleteAgent db aid).agent_flags.filter (fun f => f.agent_id = aid) = []) ∧
    (∀ h ∈ (deleteAgent db aid).health_checks, h.agent_id ≠ aid) ∧
    (∀ f ∈ (deleteAgent db aid).agent_flags, f.agent_id ≠ aid) := by
  refine ⟨⟨?_, ?_, ?_⟩, ?_, ?_⟩ <;>
    simp [deleteAgent, List.filter_filter, List.eq_nil_iff_forall_not_mem,
      List.mem_filter]

/-- C9 witness: deleting entry 1 of `cascadeDemoDb` removes its probe and
flag rows while entry 2's probe row survives and indeed references a
different entry. -/
theorem delete_cascades_witness :
    ({ id := 2, agent_id := 2, checked_at := 5, status_code := some 200,
       response_time_ms := some 40, success := true,
       error_message := none } : HealthCheckRow)
        ∈ (deleteAgent cascadeDemoDb 1).health_checks ∧
    ({ id := 2, agent_id := 2, checked_at := 5, status_code := some 200,
       response_time_ms := some 40, success := true,
       error_message := none } : HealthCheckRow).agent_id ≠ 1 ∧
    (deleteAgent cascadeDemoDb 1).health_checks.filter
      (fun h => h.agent_id = 1) = [] := by
  refine ⟨by decide, ?_, (delete_cascades cascadeDemoDb 1).1.2.1⟩
  exact (delete_cascades cascadeDemoDb 1).2.1
    { id := 2, agent_id := 2, checked_at := 5, status_code := some 200,
      response_time_ms := some 40, success := true, error_message := none }
    (by decide)

/-- C10: Every newly created Directory Entry starts publicly visible with a
zero flag counter (`hidden` DEFAULT FALSE, `flag_count` DEFAULT 0), with
`created_at` and `updated_at` set to the insertion time, and `updated_at`
is refreshed by the `update_updated_at_column` trigger on every subsequent
update of the row, whatever the update statement writes. -/
theorem new_row_defaults_and_touch (id now : Nat) (uri : String) :
    (newAgentRow id now uri).hidden = false ∧
    (newAgentRow id now uri).flag_count = 0 ∧
    (newAgentRow id now uri).created_at = now ∧
    (newAgentRow id now uri).updated_at = now ∧
    ∀ (later : Nat) (f : AgentRow → AgentRow) (a : AgentRow),
      (updateAgentRow later f a).updated_at = later := by
  refine ⟨rfl, rfl, rfl, rfl, ?_⟩
  intro later f a
  rfl

/-- C3 counterexample: under the older app's filtering effect, an entry
whose conformance is unknown (never probed) satisfies the `standard`
filter — it is NOT excluded from the `standard` class, contrary to the
claim. -/
theorem unknown_in_legacy_standard_class :
    unknownConfAgent.conformance = none ∧
    conformanceStepLegacy "standard" [unknownConfAgent] = [unknownConfAgent] ∧
    unknownConfAgent ∈ conformanceStepLegacy "standard" [unknownConfAgent] := by
  refine ⟨rfl, ?_, ?_⟩ <;> simp [conformanceStepLegacy, unknownConfAgent]

/-- C3 amended: in both filter implementations the `standard` and
`non-standard` classes partition any list of agents (each agent lands in
exactly one, their concatenation is a permutation of the whole list, and
`all` keeps everything); an unknown-conformance agent is excluded from the
`standard` class by the newer app's static-fallback filter, but is kept in
the `standard` class by the older app's filter. -/
theorem conformance_classes_partition (agents : List JsAgent) :
    (conformanceStepFallback "standard" agents ++
        conformanceStepFallback "non-standard" agents).Perm agents ∧
    (conformanceStepLegacy "standard" agents ++
        conformanceStepLegacy "non-standard" agents).Perm agents ∧
    conformanceStepFallback "all" agents = agents ∧
    conformanceStepLegacy "all" agents = agents ∧
    (∀ a ∈ agents,
      (a ∈ conformanceStepFallback "standard" agents ↔
        ¬ a ∈ conformanceStepFallback "non-standard" agents) ∧
      (a ∈ conformanceStepLegacy "standard" agents ↔
        ¬ a ∈ conformanceStepLegacy "non-standard" agents)) ∧
    (∀ a ∈ agents, a.conformance = none →
      a ∉ conformanceStepFallback "standard" agents ∧
      a ∈ conformanceStepLegacy "standard" agents) := by
  refine ⟨?_, ?_, rfl, rfl, ?_, ?_⟩
  · simpa [conformanceStepFallback] using
      List.filter_append_perm (fun agent => agent.conformance == some true) agents
  · exact List.perm_append_comm.trans
      (by simpa [conformanceStepLegacy] using
        List.filter_append_perm (fun agent => agent.conformance == some false) agents)
  · intro a ha
    constructor <;> simp [conformanceStepFallback, conformanceStepLegacy,
      List.mem_filter, ha]
  · intro a ha hc
    constructor <;> simp [conformanceStepFallback, conformanceStepLegacy,
      List.mem_filter, ha, hc]

/-- C3 witness: instantiating the partition theorem on a one-element list
holding a never-probed agent. -/
theorem conformance_classes_partition_witness :
    unknownConfAgent ∈ [unknownConfAgent] ∧
    unknownConfAgent.conformance = none ∧
    unknownConfAgent ∉ conformanceStepFallback "standard" [unknownConfAgent] ∧
    unknownConfAgent ∈ conformanceStepLegacy "standard" [unknownConfAgent] := by
  refine ⟨by simp, rfl, ?_, ?_⟩
  · exact ((conformance_classes_partition [unknownConfAgent]).2.2.2.2.2
      unknownConfAgent (by simp) rfl).1
  · exact ((conformance_classes_partition [unknownConfAgent]).2.2.2.2.2
      unknownConfAgent (by simp) rfl).2

/-- C2: after a completed probe cycle, conformance is set to `true` only
when the latest probe succeeded and its document validated; it is set to
`false` when the latest probe succeeded but failed validation, or when the
entry reached 2 consecutive fetch failures; a single isolated fetch
failure (consecutive-failure count 1) leaves conformance unchanged, so it
never flips it to `false`. -/
theorem conformance_update_rule (prev : Option Bool) (latest : ProbeResult)
    (rest : List ProbeResult) :
    (latest.success = true → latest.validated = true →
      updateConformance prev (latest :: rest) = some true) ∧
    (latest.success = true → latest.validated = false →
      updateConformance prev (latest :: rest) = some false) ∧
    (latest.success = false → 2 ≤ consecutiveFailures (latest :: rest) →
      updateConformance prev (latest :: rest) = some false) ∧
    (latest.success = false → consecutiveFailures (latest :: rest) = 1 →
      updateConformance prev (latest :: rest) = prev) := by
  refine ⟨?_, ?_, ?_, ?_⟩ <;> intro hs h
  · simp [updateConformance, hs, h]
  · simp [updateConformance, hs, h]
  · simp [updateConformance, hs, failureThreshold]
    intro hlt
    omega
  · simp [updateConformance, hs, failureThreshold, h]

/-- C2 witness: one isolated timeout after a validated probe leaves a
`true` conformance untouched, and two consecutive failures flip it. -/
theorem conformance_update_rule_witness :
    (ProbeResult.mk false false).success = false ∧
    consecutiveFailures [⟨false, false⟩, ⟨true, true⟩] = 1 ∧
    updateConformance (some true) [⟨false, false⟩, ⟨true, true⟩] = some true ∧
    updateConformance (some true) [⟨false, false⟩, ⟨false, false⟩, ⟨true, true⟩]
      = some false := by
  refine ⟨rfl, rfl, ?_, ?_⟩
  · exact (conformance_update_rule (some true) ⟨false, false⟩ [⟨true, true⟩]).2.2.2
      rfl rfl
  · exact (conformance_update_rule (some true) ⟨false, false⟩
      [⟨false, false⟩, ⟨true, true⟩]).2.2.1 rfl (by decide)

/-- C4: a fetched document whose skills list is missing or empty gets a
non-conformant verdict from the Validator, and after the entry's next
completed probe (a successful fetch of that document) the worker sets its
conformance to `false`, never `true`. -/
theorem missing_skills_not_conformant (d : AgentDoc) (prev : Option Bool)
    (rest : List ProbeResult)
    (h : d.skills = none ∨ d.skills = some []) :
    (validateCard d).conformant = false ∧
    updateConformance prev
      ({ success := true, validated := (validateCard d).conformant } :: rest)
      = some false ∧
    updateConformance prev
      ({ success := true, validated := (validateCard d).conformant } :: rest)
      ≠ some true := by
  have hsv : skillsViolations d.skills ≠ [] := by
    rcases h with h | h <;> simp [h, skillsViolations]
  have hcv : cardViolations d ≠ [] := by
    intro hnil
    apply hsv
    simp only [cardViolations, List.append_eq_nil] at hnil
    exact hnil.1.1.2
  have hfalse : (validateCard d).conformant = false := by
    simp [validateCard, List.isEmpty_iff, hcv]
  refine ⟨hfalse, ?_, ?_⟩
  · simp [updateConformance, hfalse]
  · simp [updateConformance, hfalse]

/-- C4 witness: a concrete document with every required field except the
skills list. -/
theorem missing_skills_not_conformant_witness :
    (AgentDoc.skills
        { protocolVersion := some "0.3.0", docName := some "a"
          docDescription := some "b", url := some "https://a.example"
          version := some "1.0.0", capabilities := some []
          skills := none, defaultInputModes := some ["text/plain"]
          defaultOutputModes := some ["text/plain"] } = none ∨
      AgentDoc.skills
        { protocolVersion := some "0.3.0", docName := some "a"
          docDescription := some "b", url := some "https://a.example"
          version := some "1.0.0", capabilities := some []
          skills := none, defaultInputModes := some ["text/plain"]
          defaultOutputModes := some ["text/plain"] } = some []) ∧
    (validateCard
        { protocolVersion := some "0.3.0", docName := some "a"
          docDescription := some "b", url := some "https://a.example"
          version := some "1.0.0", capabilities := some []
          skills := none, defaultInputModes := some ["text/plain"]
          defaultOutputModes := some ["text/plain"] }).conformant = false :=
  ⟨Or.inl rfl,
    (missing_skills_not_conformant _ none [] (Or.inl rfl)).1⟩

/-- The dedup key survives the descriptive population step. -/
theorem populateFromDoc_uri (a : AgentRow) (d : AgentDoc) :
    (populateFromDoc a d).well_known_uri = a.well_known_uri := rfl

/-- C1: the published URL is globally unique across Directory Entries —
registration preserves the pairwise-distinct-URL invariant of the
`agents` table — and a registration attempt for a URL that is already
registered resolves to the existing entry and creates no new row. -/
theorem registration_url_unique (db : DB) (now newId : Nat) (rawUrl : String)
    (fetch : Except FetchError AgentDoc) (hu : urisUnique db) :
    (∀ out db', register db now newId rawUrl fetch = .ok (out, db') →
      urisUnique db') ∧
    (∀ existing, isHttps rawUrl = true →
      findByUri db (normalizeUrl rawUrl) = some existing →
      register db now newId rawUrl fetch =
        .ok ({ entry := existing, isNew := false, warning := none }, db)) := by
  constructor
  · intro out db' hreg
    by_cases hh : isHttps rawUrl = false
    · simp [register, hh] at hreg
    · rcases hfind : findByUri db (normalizeUrl rawUrl) with _ | existing
      · have hfresh : ∀ a ∈ db.agents,
            a.well_known_uri ≠ normalizeUrl rawUrl := by
          intro a ha
          simpa using List.find?_eq_none.mp hfind a ha
        rcases fetch with e | doc
        · have hstep : register db now newId rawUrl (Except.error e) =
              Except.ok
                ({ entry := newAgentRow newId now (normalizeUrl rawUrl),
                   isNew := true, warning := some (fetchWarning e) },
                 insertAgent db (newAgentRow newId now (normalizeUrl rawUrl))) := by
            simp [register, hh, hfind]
          rw [hstep] at hreg
          injection hreg with h
          injection h with hout hdb
          rw [← hdb]
          show (newAgentRow newId now (normalizeUrl rawUrl) :: db.agents).Pairwise
            (fun a b => a.well_known_uri ≠ b.well_known_uri)
          refine List.pairwise_cons.mpr ⟨?_, hu⟩
          intro a ha hEq
          exact hfresh a ha (by rw [← hEq]; rfl)
        · have hstep : register db now newId rawUrl (Except.ok doc) =
              Except.ok
                ({ entry := populateFromDoc
                      (newAgentRow newId now (normalizeUrl rawUrl)) doc,
                   isNew := true,
                   warning := validationWarning (validateCard doc) },
                 insertAgent db (populateFromDoc
                   (newAgentRow newId now (normalizeUrl rawUrl)) doc)) := by
            simp [register, hh, hfind]
          rw [hstep] at hreg
          injection hreg with h
          injection h with hout hdb
          rw [← hdb]
          show (populateFromDoc (newAgentRow newId now (normalizeUrl rawUrl)) doc
              :: db.agents).Pairwise
            (fun a b => a.well_known_uri ≠ b.well_known_uri)
          refine List.pairwise_cons.mpr ⟨?_, hu⟩
          intro a ha hEq
          exact hfresh a ha (by rw [← hEq]; rfl)
      · have hstep : register db now newId rawUrl fetch =
            Except.ok ({ entry := existing, isNew := false, warning := none }, db) := by
          simp [register, hh, hfind]
        rw [hstep] at hreg
        injection hreg with h
        injection h with hout hdb
        rw [← hdb]
        exact hu
  · intro existing hh hfind
    simp [register, hh, hfind]

/-- C1 witness: re-registering the URL of an already-registered entry (up
to normalization) returns that entry and leaves the table unchanged. -/
theorem registration_url_unique_witness :
    urisUnique { agents := [newAgentRow 1 0 "https://a.example/agent.json"],
                 health_checks := [], agent_flags := [] } ∧
    isHttps "https://a.example/agent.json/" = true ∧
    findByUri { agents := [newAgentRow 1 0 "https://a.example/agent.json"],
                health_checks := [], agent_flags := [] }
        (normalizeUrl "https://a.example/agent.json/")
      = some (newAgentRow 1 0 "https://a.example/agent.json") ∧
    register { agents := [newAgentRow 1 0 "https://a.example/agent.json"],
               health_checks := [], agent_flags := [] } 7 2
        "https://a.example/agent.json/" (.error .timeout) =
      .ok ({ entry := newAgentRow 1 0 "https://a.example/agent.json",
             isNew := false, warning := none },
           { agents := [newAgentRow 1 0 "https://a.example/agent.json"],
             health_checks := [], agent_flags := [] }) := by
  refine ⟨?_, ?_, ?_, ?_⟩
  · unfold urisUnique
    simp
  · decide
  · decide
  · exact (registration_url_unique
      { agents := [newAgentRow 1 0 "https://a.example/agent.json"],
        health_checks := [], agent_flags := [] } 7 2
      "https://a.example/agent.json/" (.error .timeout)
      (by unfold urisUnique; simp)).2
      (newAgentRow 1 0 "https://a.example/agent.json") (by decide) (by decide)

/-- C6: registering a new well-formed https URL succeeds even when the
synchronous card fetch fails or the fetched card fails validation: in
either case the entry is still created (one new row), its conformance is
unknown, and the caller receives a warning rather than an error
response. -/
theorem registration_survives_fetch_or_validation_failure (db : DB)
    (now newId : Nat) (rawUrl : String) (e : FetchError) (doc : AgentDoc)
    (hh : isHttps rawUrl = true)
    (hnew : findByUri db (normalizeUrl rawUrl) = none)
    (hbad : (validateCard doc).conformant = false) :
    (register db now newId rawUrl (.error e) =
      .ok ({ entry := newAgentRow newId now (normalizeUrl rawUrl), isNew := true,
             warning := some (fetchWarning e) },
           insertAgent db (newAgentRow newId now (normalizeUrl rawUrl))) ∧
     (newAgentRow newId now (normalizeUrl rawUrl)).conformance = none ∧
     (insertAgent db (newAgentRow newId now (normalizeUrl rawUrl))).agents.length
       = db.agents.length + 1) ∧
    (register db now newId rawUrl (.ok doc) =
      .ok ({ entry := populateFromDoc (newAgentRow newId now (normalizeUrl rawUrl)) doc,
             isNew := true,
             warning := some "validation failed: agent card not conformant" },
           insertAgent db
             (populateFromDoc (newAgentRow newId now (normalizeUrl rawUrl)) doc)) ∧
     (populateFromDoc (newAgentRow newId now (normalizeUrl rawUrl)) doc).conformance
       = none ∧
     (insertAgent db
         (populateFromDoc (newAgentRow newId now (normalizeUrl rawUrl)) doc)).agents.length
       = db.agents.length + 1) := by
  refine ⟨⟨?_, rfl, rfl⟩, ⟨?_, rfl, rfl⟩⟩
  · simp [register, hh, hnew]
  · simp [register, hh, hnew, validationWarning, hbad]

/-- C6 witness: a fresh https URL whose fetch times out is still
registered with unknown conformance and a warning, and so is the same URL
when the fetch succeeds but the card has no skills list and so fails
validation. -/
theorem registration_survives_fetch_or_validation_failure_witness :
    isHttps "https://b.example/agent.json" = true ∧
    findByUri { agents := [], health_checks := [], agent_flags := [] }
      (normalizeUrl "https://b.example/agent.json") = none ∧
    (validateCard
        { protocolVersion := some "0.3.0", docName := some "b"
          docDescription := some "c", url := some "https://b.example"
          version := some "1.0.0", capabilities := some []
          skills := none, defaultInputModes := some ["text/plain"]
          defaultOutputModes := some ["text/plain"] }).conformant = false ∧
    register { agents := [], health_checks := [], agent_flags := [] } 3 1
        "https://b.example/agent.json" (.error .timeout) =
      .ok ({ entry := newAgentRow 1 3 (normalizeUrl "https://b.example/agent.json"),
             isNew := true, warning := some (fetchWarning .timeout) },
           insertAgent { agents := [], health_checks := [], agent_flags := [] }
             (newAgentRow 1 3 (normalizeUrl "https://b.example/agent.json"))) ∧
    (register { agents := [], health_checks := [], agent_flags := [] } 3 1
        "https://b.example/agent.json"
        (.ok { protocolVersion := some "0.3.0", docName := some "b"
               docDescription := some "c", url := some "https://b.example"
               version := some "1.0.0", capabilities := some []
               skills := none, defaultInputModes := some ["text/plain"]
               defaultOutputModes := some ["text/plain"] })).map
      (fun out => out.1.warning)
      = .ok (some "validation failed: agent card not conformant") := by
  refine ⟨by decide, rfl, rfl, ?_, ?_⟩
  · exact ((registration_survives_fetch_or_validation_failure
      { agents := [], health_checks := [], agent_flags := [] } 3 1
      "https://b.example/agent.json" .timeout
      { protocolVersion := some "0.3.0", docName := some "b"
        docDescription := some "c", url := some "https://b.example"
        version := some "1.0.0", capabilities := some []
        skills := none, defaultInputModes := some ["text/plain"]
        defaultOutputModes := some ["text/plain"] }
      (by decide) rfl rfl).1).1
  · rw [((registration_survives_fetch_or_validation_failure
      { agents := [], health_checks := [], agent_flags := [] } 3 1
      "https://b.example/agent.json" .timeout
      { protocolVersion := some "0.3.0", docName := some "b"
        docDescription := some "c", url := some "https://b.example"
        version := some "1.0.0", capabilities := some []
        skills := none, defaultInputModes := some ["text/plain"]
        defaultOutputModes := some ["text/plain"] }
      (by decide) rfl rfl).2).1]
    rfl

/-- Filtering for successful probes twice filters once. -/
theorem filter_success_idem (ps : List HealthCheckRow) :
    (ps.filter (fun h => h.success)).filter (fun h => h.success)
      = ps.filter (fun h => h.success) := by
  rw [List.filter_filter]
  simp

/-- C5: over any trailing window, uptime is `100 * successes / total`
(`0` on an empty window), average latency is taken over successful probes
only (failed probes contribute nothing), and 10 probes with 8 successes
give exactly 80. -/
theorem uptime_arithmetic (db : DB) (aid cutoff : Nat) (ps : List HealthCheckRow) :
    (probesInWindow db aid cutoff ≠ [] →
      uptimePercentage (probesInWindow db aid cutoff) =
        100 * (successCount (probesInWindow db aid cutoff) : ℚ) /
          ((probesInWindow db aid cutoff).length : ℚ)) ∧
    (probesInWindow db aid cutoff = [] →
      uptimePercentage (probesInWindow db aid cutoff) = 0) ∧
    avgLatencyMs ps = avgLatencyMs (ps.filter (fun h => h.success)) ∧
    (ps.length = 10 → successCount ps = 8 → uptimePercentage ps = 80) := by
  refine ⟨?_, ?_, ?_, ?_⟩
  · intro hne
    have hlen : (probesInWindow db aid cutoff).length ≠ 0 := by
      simpa [List.length_eq_zero] using hne
    simp [uptimePercentage, hlen]
  · intro hnil
    simp [uptimePercentage, hnil]
  · simp only [avgLatencyMs, filter_success_idem]
  · intro hlen hsucc
    rw [uptimePercentage, hsucc, hlen]
    norm_num

/-- C5 witness: a concrete window of 10 probes, 8 of them successful,
evaluates to an uptime of exactly 80. -/
theorem uptime_arithmetic_witness :
    ((List.range 10).map (fun i =>
        ({ id := i, agent_id := 1, checked_at := i, status_code := some 200,
           response_time_ms := some 50, success := decide (i < 8),
           error_message := none } : HealthCheckRow))).length = 10 ∧
    successCount ((List.range 10).map (fun i =>
        ({ id := i, agent_id := 1, checked_at := i, status_code := some 200,
           response_time_ms := some 50, success := decide (i < 8),
           error_message := none } : HealthCheckRow))) = 8 ∧
    uptimePercentage ((List.range 10).map (fun i =>
        ({ id := i, agent_id := 1, checked_at := i, status_code := some 200,
           response_time_ms := some 50, success := decide (i < 8),
           error_message := none } : HealthCheckRow))) = 80 := by
  refine ⟨by decide, by decide, ?_⟩
  exact (uptime_arithmetic { agents := [], health_checks := [], agent_flags := [] }
    1 0 _).2.2.2 (by decide) (by decide)

/-- C7: Probe Records are append-only — appending a fresh probe record
(probed later than every existing record of its entry) preserves the
strict per-entry timestamp monotonicity, leaves every existing row
unchanged and in place (the old table is literally the prefix of the new
one), adds exactly one row, and retention pruning also preserves
monotonicity and only drops rows (the pruned table is a sublist, so no
row is mutated or reordered). -/
theorem probe_records_append_only (db : DB) (row : HealthCheckRow) (cutoff : Nat)
    (hmono : probeTimesMonotone db)
    (hfresh : ∀ h ∈ probesFor db row.agent_id, h.checked_at < row.checked_at) :
    probeTimesMonotone (appendProbe db row) ∧
    (appendProbe db row).health_checks.take db.health_checks.length
      = db.health_checks ∧
    (appendProbe db row).health_checks.length = db.health_checks.length + 1 ∧
    probeTimesMonotone (pruneProbes db cutoff) ∧
    (pruneProbes db cutoff).health_checks.Sublist db.health_checks := by
  refine ⟨?_, ?_, ?_, ?_, ?_⟩
  · intro aid
    have hsplit : probesFor (appendProbe db row) aid =
        probesFor db aid ++ [row].filter (fun h => h.agent_id = aid) := by
      simp [probesFor, appendProbe, List.filter_append]
    rw [hsplit]
    by_cases haid : row.agent_id = aid
    · have : [row].filter (fun h => h.agent_id = aid) = [row] := by
        simp [haid]
      rw [this, List.map_append]
      refine (List.pairwise_append).mpr ⟨hmono aid, by simp, ?_⟩
      intro x hx y hy
      simp only [List.mem_map] at hx
      rcases hx with ⟨h, hh, rfl⟩
      simp only [List.map_cons, List.map_nil, List.mem_cons,
        List.not_mem_nil, or_false] at hy
      subst hy
      exact hfresh h (haid ▸ hh)
    · have : [row].filter (fun h => h.agent_id = aid) = [] := by
        simp [haid]
      rw [this, List.append_nil]
      exact hmono aid
  · simp [appendProbe, List.take_left]
  · simp [appendProbe]
  · intro aid
    have hsub : probesFor (pruneProbes db cutoff) aid =
        (probesFor db aid).filter (fun h => cutoff ≤ h.checked_at) := by
      simp [probesFor, pruneProbes, List.filter_filter, Bool.and_comm]
    rw [hsub]
    exact List.Pairwise.sublist ((List.filter_sublist _).map _) (hmono aid)
  · exact List.filter_sublist _

/-- C7 witness: appending a probe at time 9 after probes at times 3 and 6
keeps the history monotone and untouched. -/
theorem probe_records_append_only_witness :
    probeTimesMonotone
      { agents := [], agent_flags := [],
        health_checks :=
          [{ id := 1, agent_id := 1, checked_at := 3, status_code := some 200,
             response_time_ms := some 40, success := true, error_message := none },
           { id := 2, agent_id := 1, checked_at := 6, status_code := none,
             response_time_ms := none, success := false,
             error_message := some "timeout" }] } ∧
    probeTimesMonotone
      (appendProbe
        { agents := [], agent_flags := [],
          health_checks :=
            [{ id := 1, agent_id := 1, checked_at := 3, status_code := some 200,
               response_time_ms := some 40, success := true, error_message := none },
             { id := 2, agent_id := 1, checked_at := 6, status_code := none,
               response_time_ms := none, success := false,
               error_message := some "timeout" }] }
        { id := 3, agent_id := 1, checked_at := 9, status_code := some 200,
          response_time_ms := some 55, success := true, error_message := none }) := by
  have hmono : probeTimesMonotone
      { agents := [], agent_flags := [],
        health_checks :=
          [{ id := 1, agent_id := 1, checked_at := 3, status_code := some 200,
             response_time_ms := some 40, success := true, error_message := none },
           { id := 2, agent_id := 1, checked_at := 6, status_code := none,
             response_time_ms := none, success := false,
             error_message := some "timeout" }] } := by
    intro aid
    by_cases h1 : (1 : Nat) = aid
    · subst h1
      simp [probesFor, List.filter]
    · simp [probesFor, List.filter, h1]
  refine ⟨hmono, ?_⟩
  exact (probe_records_append_only _ _ 0 hmono
    (by intro h hh; revert hh; simp [probesFor, List.filter]; rintro (rfl | rfl) <;> decide)).1


/-- C8 counterexample: flagging is an UPDATE of the `agents` row, so the
`update_updated_at_column` trigger refreshes `updated_at` — the claim
that flagging leaves every field other than the flag counter unchanged
fails at this concrete input (agent id 1 of `flagDemoDb`, flagged at
time 5). -/
theorem flag_refreshes_updated_at :
    ((flagAgent flagDemoDb 5 1 1 (some "spam")).agents.map
      (fun a => a.updated_at)) = [5] ∧
    (flagDemoDb.agents.map (fun a => a.updated_at)) = [0] ∧
    ((flagAgent flagDemoDb 5 1 1 (some "spam")).agents.map
        (fun a => a.updated_at)) ≠
      (flagDemoDb.agents.map (fun a => a.updated_at)) := by
  refine ⟨?_, rfl, ?_⟩ <;> decide

/-- C8 amended: flagging an entry appends exactly one Flag Record and
increments that entry's flag counter by one, leaving the entry's hidden
flag and all other fields except `updated_at` unchanged (`updated_at` is
refreshed by the schema's update trigger); other rows and tables are
untouched; flagging an entry three times yields a flag counter of 3 with
`hidden` still false. -/
theorem flag_increments_counter (db : DB) (now fid aid : Nat) (r : Option String) :
    (flagAgent db now fid aid r).agent_flags =
      db.agent_flags ++ [{ id := fid, agent_id := aid, flagged_at := now, reason := r }] ∧
    (flagAgent db now fid aid r).health_checks = db.health_checks ∧
    (flagAgent db now fid aid r).agents.length = db.agents.length ∧
    (∀ a ∈ db.agents, a.id ≠ aid → a ∈ (flagAgent db now fid aid r).agents) ∧
    (∀ a ∈ db.agents, a.id = aid →
      (updateAgentRow now (fun b => { b with flag_count := b.flag_count + 1 }) a
          ∈ (flagAgent db now fid aid r).agents) ∧
      (updateAgentRow now (fun b => { b with flag_count := b.flag_count + 1 }) a).flag_count
          = a.flag_count + 1 ∧
      (updateAgentRow now (fun b => { b with flag_count := b.flag_count + 1 }) a).hidden
          = a.hidden ∧
      (updateAgentRow now (fun b => { b with flag_count := b.flag_count + 1 }) a).id
          = a.id ∧
      (updateAgentRow now (fun b => { b with flag_count := b.flag_count + 1 }) a).name
          = a.name ∧
      (updateAgentRow now (fun b => { b with flag_count := b.flag_count + 1 }) a).well_known_uri
          = a.well_known_uri ∧
      (updateAgentRow now (fun b => { b with flag_count := b.flag_count + 1 }) a).conformance
          = a.conformance ∧
      (updateAgentRow now (fun b => { b with flag_count := b.flag_count + 1 }) a).created_at
          = a.created_at ∧
      (updateAgentRow now (fun b => { b with flag_count := b.flag_count + 1 }) a).skills
          = a.skills ∧
      (updateAgentRow now (fun b => { b with flag_count := b.flag_count + 1 }) a).updated_at
          = now) ∧
    (∀ a : AgentRow, a.flag_count = 0 → a.hidden = false →
      ((flagAgent (flagAgent (flagAgent
            { agents := [a], health_checks := [], agent_flags := [] }
            now fid a.id r) now fid a.id r) now fid a.id r).agents.map
          (fun b => b.flag_count)) = [3] ∧
      ((flagAgent (flagAgent (flagAgent
            { agents := [a], health_checks := [], agent_flags := [] }
            now fid a.id r) now fid a.id r) now fid a.id r).agents.map
          (fun b => b.hidden)) = [false]) := by
  refine ⟨rfl, rfl, by simp [flagAgent], ?_, ?_, ?_⟩
  · intro a ha hne
    have hkeep : (if a.id = aid then
        updateAgentRow now (fun b => { b with flag_count := b.flag_count + 1 }) a
      else a) = a := by simp [hne]
    exact List.mem_map.mpr ⟨a, ha, hkeep⟩
  · intro a ha hidEq
    refine ⟨?_, rfl, rfl, rfl, rfl, rfl, rfl, rfl, rfl, rfl⟩
    have hkeep : (if a.id = aid then
        updateAgentRow now (fun b => { b with flag_count := b.flag_count + 1 }) a
      else a) =
        updateAgentRow now (fun b => { b with flag_count := b.flag_count + 1 }) a := by
      simp [hidEq]
    exact List.mem_map.mpr ⟨a, ha, hkeep⟩
  · intro a h0 hh
    constructor <;>
      simp [flagAgent, updateAgentRow, touchRow, h0, hh]

/-- C8 witness: the entry of `flagDemoDb` flagged once increments its
counter from 0 to 1; flagged three times it reaches 3. -/
theorem flag_increments_counter_witness :
    newAgentRow 1 0 "https://c.example/agent.json" ∈ flagDemoDb.agents ∧
    (newAgentRow 1 0 "https://c.example/agent.json").id = 1 ∧
    (updateAgentRow 5 (fun b => { b with flag_count := b.flag_count + 1 })
        (newAgentRow 1 0 "https://c.example/agent.json")).flag_count = 0 + 1 ∧
    ((flagAgent (flagAgent (flagAgent flagDemoDb 5 1 1 (some "spam"))
        5 1 1 (some "spam")) 5 1 1 (some "spam")).agents.map
      (fun b => b.flag_count)) = [3] := by
  refine ⟨by simp [flagDemoDb], rfl, ?_, ?_⟩
  · exact ((flag_increments_counter flagDemoDb 5 1 1 (some "spam")).2.2.2.2.1
      (newAgentRow 1 0 "https://c.example/agent.json") (by simp [flagDemoDb]) rfl).2.1
  · have h3 := ((flag_increments_counter flagDemoDb 5 1 1 (some "spam")).2.2.2.2.2
      (newAgentRow 1 0 "https://c.example/agent.json") rfl rfl).1
    exact h3

end A2ARegistry
